import Mathlib

/-!
# Verification of the jetool request orchestrator

Shallow embedding of `src/python/agent.py` (class `JewishIdentityAnalyzerAgent`)
and `src/api/analyze.py` (`handler.do_POST`).

Modelling conventions:
* Python `str` values are modelled as `List Char` (called `Text` below); Python
  slicing `s[:n]` is `List.take n`, f-string concatenation is `++`.
* The remote model endpoints (OpenAI chat completions) are modelled as oracle
  parameters of type `Except Text Text`: `.ok reply` is a successful call
  returning the reply text, `.error e` is any raised exception (network, API,
  file-read), matching the Python `try/except` structure.
* Python `json.loads` is modelled by `json_loads` over a `Json` value type.
  Python distinguishes int and float; both are modelled as the exact decimal
  number `Json.num m e` denoting `m * 10 ^ e` (so the Python int `73` is
  `num 73 0` and the float `0.5` is `num 5 (-1)`), which is exact for every
  numeral appearing in this program.  `json.loads` only succeeds when the
  whole input is a single JSON value surrounded by optional whitespace, which
  the model reproduces.
* Python truthiness of optional-string arguments (`if image_path:`) is
  `truthy`: `None` and the empty string are falsy.
* Remote invocations are additionally recorded in an explicit trace
  (`RemoteCall` lists) so that "no remote call is made" is a statement about
  the trace, not merely about oracle-independence.
-/

/-- Python `str` is modelled as a list of characters. -/
abbrev Text := List Char

/-- Digits of a decimal numeral to a natural number (`int(...)` on a `\d+`
regex group never fails and yields this value). -/
def digitsToNat (ds : Text) : Nat :=
  ds.foldl (fun n c => 10 * n + (c.toNat - '0'.toNat)) 0

/-- Python truthiness of an optional string: `None` and `""` are falsy. -/
def truthy : Option Text → Bool
  | none => false
  | some s => !s.isEmpty

/-- JSON values, the result type of the `json.loads` model.  `num m e`
denotes the exact decimal number `m * 10 ^ e` (Python ints and floats
merged); objects keep their fields in textual order. -/
inductive Json where
  | null : Json
  | bool (b : Bool) : Json
  | num (m : Int) (e : Int) : Json
  | str (s : Text) : Json
  | arr (elems : List Json) : Json
  | obj (fields : List (Text × Json)) : Json

/-- JSON whitespace, as accepted between tokens by `json.loads`. -/
def isJsonWs (c : Char) : Bool :=
  c = ' ' || c = '\t' || c = '\n' || c = '\r'

/-- Skip JSON whitespace. -/
def skipWs (s : Text) : Text :=
  s.dropWhile isJsonWs

/-- Parse the body of a JSON string (after the opening quote), handling the
escape sequences `json.loads` accepts; unescaped control characters are
rejected (strict mode). Returns the decoded text and the remainder after the
closing quote. -/
def parseStringBody : Text → Option (Text × Text)
  | [] => none
  | '"' :: rest => some ([], rest)
  | '\\' :: e :: rest =>
    match e with
    | '"' => (parseStringBody rest).map (fun (s, r) => ('"' :: s, r))
    | '\\' => (parseStringBody rest).map (fun (s, r) => ('\\' :: s, r))
    | '/' => (parseStringBody rest).map (fun (s, r) => ('/' :: s, r))
    | 'b' => (parseStringBody rest).map (fun (s, r) => ('\x08' :: s, r))
    | 'f' => (parseStringBody rest).map (fun (s, r) => ('\x0c' :: s, r))
    | 'n' => (parseStringBody rest).map (fun (s, r) => ('\n' :: s, r))
    | 'r' => (parseStringBody rest).map (fun (s, r) => ('\r' :: s, r))
    | 't' => (parseStringBody rest).map (fun (s, r) => ('\t' :: s, r))
    | 'u' =>
      match rest with
      | a :: b :: c :: d :: rest' =>
        if isHex a && isHex b && isHex c && isHex d then
          let n := 4096 * hexVal a + 256 * hexVal b + 16 * hexVal c + hexVal d
          (parseStringBody rest').map (fun (s, r) => (Char.ofNat n :: s, r))
        else none
      | _ => none
    | _ => none
  | c :: rest =>
    if c.toNat < 32 then none
    else (parseStringBody rest).map (fun (s, r) => (c :: s, r))
where
  isHex (c : Char) : Bool :=
    c.isDigit || ('a' ≤ c && c ≤ 'f') || ('A' ≤ c && c ≤ 'F')
  hexVal (c : Char) : Nat :=
    if c.isDigit then c.toNat - '0'.toNat
    else if 'a' ≤ c && c ≤ 'f' then c.toNat - 'a'.toNat + 10
    else if 'A' ≤ c && c ≤ 'F' then c.toNat - 'A'.toNat + 10
    else 0

/-- Parse the integer-part digits of a JSON number: a single `0`, or a nonzero
digit followed by digits (leading zeros are rejected, as by `json.loads`). -/
def parseIntDigits : Text → Option (Nat × Text)
  | '0' :: rest => some (0, rest)
  | c :: rest =>
    if c.isDigit then
      let ds := rest.takeWhile Char.isDigit
      some (digitsToNat (c :: ds), rest.dropWhile Char.isDigit)
    else none
  | [] => none

/-- Parse an optional exponent part and assemble the final decimal number
`(mantissa, exponent)`; `m` and `e` are the value accumulated from the
integer and fraction parts, `neg` the sign of the whole number. -/
def parseNumExp (neg : Bool) (m : Nat) (e : Int) (s : Text) : Option ((Int × Int) × Text) :=
  let signedM : Int := if neg then -(m : Int) else (m : Int)
  match s with
  | 'e' :: r => expPart signedM e r
  | 'E' :: r => expPart signedM e r
  | _ => some ((signedM, e), s)
where
  expPart (signedM : Int) (e : Int) (r : Text) : Option ((Int × Int) × Text) :=
    let (eneg, r₁) :=
      match r with
      | '-' :: r' => (true, r')
      | '+' :: r' => (false, r')
      | _ => (false, r)
    let ds := r₁.takeWhile Char.isDigit
    if ds.isEmpty then none
    else
      let ev : Int := if eneg then -(digitsToNat ds : Int) else (digitsToNat ds : Int)
      some ((signedM, e + ev), r₁.dropWhile Char.isDigit)

/-- Parse a JSON number after an optional leading minus sign has been
consumed; `neg` records the sign.  Produces the exact decimal value as a
mantissa-exponent pair. -/
def parseNumAfterSign (neg : Bool) (s : Text) : Option ((Int × Int) × Text) :=
  match parseIntDigits s with
  | none => none
  | some (ip, rest) =>
    match rest with
    | '.' :: r =>
      let ds := r.takeWhile Char.isDigit
      if ds.isEmpty then none
      else
        parseNumExp neg (ip * 10 ^ ds.length + digitsToNat ds)
          (-(ds.length : Int)) (r.dropWhile Char.isDigit)
    | _ => parseNumExp neg ip 0 rest

mutual

/-- Parse one JSON value (leading whitespace allowed), returning it together
with the unconsumed remainder.  `fuel` bounds the nesting depth; it is
instantiated with the input length, which suffices for every input. -/
def parseVal : Nat → Text → Option (Json × Text)
  | 0, _ => none
  | fuel + 1, s =>
    match skipWs s with
    | '{' :: rest =>
      match skipWs rest with
      | '}' :: rest' => some (Json.obj [], rest')
      | rest' => parseMembers fuel rest' []
    | '[' :: rest =>
      match skipWs rest with
      | ']' :: rest' => some (Json.arr [], rest')
      | rest' => parseElems fuel rest' []
    | '"' :: rest => (parseStringBody rest).map (fun (str, r) => (Json.str str, r))
    | 't' :: 'r' :: 'u' :: 'e' :: rest => some (Json.bool true, rest)
    | 'f' :: 'a' :: 'l' :: 's' :: 'e' :: rest => some (Json.bool false, rest)
    | 'n' :: 'u' :: 'l' :: 'l' :: rest => some (Json.null, rest)
    | '-' :: rest => (parseNumAfterSign true rest).map (fun (me, r) => (Json.num me.1 me.2, r))
    | s' =>
      match parseNumAfterSign false s' with
      | some (me, r) => some (Json.num me.1 me.2, r)
      | none => none

/-- Parse the members of a JSON object after the opening brace (a nonempty
member list), accumulating parsed fields. -/
def parseMembers : Nat → Text → List (Text × Json) → Option (Json × Text)
  | 0, _, _ => none
  | fuel + 1, s, acc =>
    match skipWs s with
    | '"' :: rest =>
      match parseStringBody rest with
      | none => none
      | some (key, r₁) =>
        match skipWs r₁ with
        | ':' :: r₂ =>
          match parseVal fuel r₂ with
          | none => none
          | some (v, r₃) =>
            match skipWs r₃ with
            | ',' :: r₄ => parseMembers fuel r₄ (acc ++ [(key, v)])
            | '}' :: r₄ => some (Json.obj (acc ++ [(key, v)]), r₄)
            | _ => none
        | _ => none
    | _ => none

/-- Parse the elements of a JSON array after the opening bracket (a nonempty
element list), accumulating parsed values. -/
def parseElems : Nat → Text → List Json → Option (Json × Text)
  | 0, _, _ => none
  | fuel + 1, s, acc =>
    match parseVal fuel s with
    | none => none
    | some (v, r) =>
      match skipWs r with
      | ',' :: r' => parseElems fuel r' (acc ++ [v])
      | ']' :: r' => some (Json.arr (acc ++ [v]), r')
      | _ => none

end

/-- Model of Python `json.loads`: parse a single JSON value and require that
only whitespace remains. -/
def json_loads (s : Text) : Option Json :=
  match parseVal (s.length + 1) s with
  | some (v, rest) => if (skipWs rest).isEmpty then some v else none
  | none => none

/-- Model of `re.search(r'\{.*\}', s, re.DOTALL)` (agent.py lines 113, 185):
with a greedy `.*`, the match — when one exists — spans from the first `{`
that precedes the last `}` of the string to that last `}`.  Returns the
matched substring. -/
def brace_extract (s : Text) : Option Text :=
  match List.findIdx? (fun c => c = '{') s, List.findIdx? (fun c => c = '}') s.reverse with
  | some i, some k =>
    let j := s.length - 1 - k
    if i < j then some ((s.take (j + 1)).drop i) else none
  | _, _ => none

/-- Model of `re.search(r'(\d+)', s)` followed by `int(...)` (agent.py lines
118-119): the first maximal run of decimal digits, as a number; `none` when
the text has no digit.  (Python `\d` also matches non-ASCII decimal digits;
replies are modelled as ASCII.) -/
def first_int (s : Text) : Option Nat :=
  match (s.dropWhile (fun c => !c.isDigit)).takeWhile Char.isDigit with
  | [] => none
  | ds => some (digitsToNat ds)

/-- Scanner behind `percent_int`: `run` holds the digit run immediately
preceding the scan position.  A `%` directly after a nonempty digit run
yields that run, matching the leftmost match of the regex. -/
def percent_scan : Text → Text → Option Nat
  | _, [] => none
  | run, c :: cs =>
    if c.isDigit then percent_scan (run ++ [c]) cs
    else if c = '%' && !run.isEmpty then some (digitsToNat run)
    else percent_scan [] cs

/-- Model of `re.search(r'(\d+)%', s)` followed by `int(...)` (agent.py lines
194, 210, 226): the first maximal digit run immediately followed by `%`. -/
def percent_int (s : Text) : Option Nat :=
  percent_scan [] s

/-- Case-insensitive (ASCII) test that `t` starts with `pat`, as under
`re.IGNORECASE`. -/
def ciStarts : Text → Text → Bool
  | [], _ => true
  | _ :: _, [] => false
  | p :: ps, c :: cs => (p.toLower = c.toLower) && ciStarts ps cs

/-- The remainder of the text after the first case-insensitive occurrence of
`pat`, or `none` when `pat` does not occur. -/
def ciFindRest (pat : Text) : Text → Option Text
  | [] => if pat.isEmpty then some [] else none
  | c :: cs =>
    if ciStarts pat (c :: cs) then some ((c :: cs).drop pat.length)
    else ciFindRest pat cs

/-- Model of `re.search(r'probability[^\d]*(\d+)', s, re.IGNORECASE)` (agent.py
lines 198, 214, 230): the first maximal digit run after the first
case-insensitive occurrence of `probability`, or `none` when no digit follows
any occurrence. -/
def prob_int (s : Text) : Option Nat :=
  match ciFindRest "probability".toList s with
  | some rest => first_int rest
  | none => none

/-- The probability-recovery sequence shared by all three fallback branches of
`calculate_jewish_probability` (agent.py lines 194-199, 210-215, 226-231):
first the `(\d+)%` pattern, then the `probability[^\d]*(\d+)` pattern,
defaulting to 50 when both miss. -/
def extract_probability (result : Text) : Nat :=
  match percent_int result with
  | some p => p
  | none =>
    match prob_int result with
    | some p => p
    | none => 50

/-- Python `key in dict` on the parsed JSON value.  (`brace_extract` output
always begins with `{`, so a successful `json_loads` is always an object and
the Python membership test never raises.) -/
def json_has_key (v : Json) (key : Text) : Bool :=
  match v with
  | .obj fields => fields.any (fun f => f.1 == key)
  | _ => false

/-- Dictionary lookup on a JSON object (last binding wins, as in a Python
dict); `none` on a missing key or a non-object. -/
def json_get (v : Json) (key : Text) : Option Json :=
  match v with
  | .obj fields => (fields.reverse.find? (fun f => f.1 == key)).map Prod.snd
  | _ => none

/-- The rational number denoted by a JSON number node (`num m e` denotes
`m * 10 ^ e`). -/
def Json.numVal : Json → Option ℚ
  | .num m e => some ((m : ℚ) * 10 ^ e)
  | _ => none

/-- The reply-parsing tail of `analyze_ethnic_image` (agent.py lines
110-130): greedy brace extraction and `json.loads`; with no brace region, the
first-integer fallback (default 50) labelled `unstructured analysis`; when
`json.loads` raises, the constant-50 fallback labelled `analysis error`.
Both fallbacks carry `result[:200]` as `spiegazione`. -/
def analyze_image_parse (result : Text) : Json :=
  match brace_extract result with
  | some t =>
    match json_loads t with
    | some v => v
    | none =>
      Json.obj [("punteggio_immagine".toList, Json.num 50 0),
                ("indicatori_visivi".toList, Json.arr [Json.str "analysis error".toList]),
                ("spiegazione".toList, Json.str (result.take 200))]
  | none =>
    Json.obj [("punteggio_immagine".toList, Json.num (((first_int result).getD 50 : Nat) : Int) 0),
              ("indicatori_visivi".toList, Json.arr [Json.str "unstructured analysis".toList]),
              ("spiegazione".toList, Json.str (result.take 200))]

/-- One fallback dictionary of `calculate_jewish_probability`; the three
branches (agent.py lines 201-207, 217-223, 233-239) differ only in the
indicator label and the confidence.  The confidence is the decimal
`conf10 / 10`: `5` models the Python float `0.5`, `3` models `0.3`. -/
def calc_fallback (result : Text) (indicator : Text) (conf10 : Int) : Json :=
  Json.obj [("probabilita_percentuale".toList, Json.num ((extract_probability result : Nat) : Int) 0),
            ("categoria".toList,
              Json.str (if extract_probability result > 40 then "moderata".toList else "bassa".toList)),
            ("indicatori_principali".toList, Json.arr [Json.str indicator]),
            ("spiegazione".toList, Json.str (result.take 200)),
            ("confidenza".toList, Json.num conf10 (-1))]

/-- The reply-parsing tail of `calculate_jewish_probability` (agent.py lines
183-239): on a successful parse the dict is returned unchanged when it has
the `probabilita_percentuale` key and replaced by a 0.5-confidence fallback
otherwise; with no brace region, a 0.5-confidence fallback; when `json.loads`
raises (`JSONDecodeError ⊆ ValueError`), a 0.3-confidence fallback. -/
def calculate_parse (result : Text) : Json :=
  match brace_extract result with
  | some t =>
    match json_loads t with
    | some parsed =>
      if json_has_key parsed "probabilita_percentuale".toList then parsed
      else calc_fallback result "fallback analysis".toList 5
    | none => calc_fallback result "analysis error fallback".toList 3
  | none => calc_fallback result "unstructured analysis".toList 5

/-- One remote model invocation, recorded in an explicit call trace so that
"no remote call is made" is a statement about the trace. -/
inductive RemoteCall where
  | search (query : Text) : RemoteCall
  | vision (attachment : Text) : RemoteCall
  | scoring : RemoteCall

/-- The image source selected by `analyze_ethnic_image`. -/
inductive ImageSource where
  | fromPath (path : Text) : ImageSource
  | fromBase64 (b64 : Text) : ImageSource
  | fromUrl (url : Text) : ImageSource

/-- The image-source selection of `analyze_ethnic_image` (agent.py lines
64-90): the `if/elif` chain tests `image_path`, then `image_base64`, then
`image_url`, under Python truthiness; `none` models the
`{"errore": "No image provided"}` branch. -/
def choose_image_source (image_path image_url image_base64 : Option Text) :
    Option ImageSource :=
  if truthy image_path then some (.fromPath (image_path.getD []))
  else if truthy image_base64 then some (.fromBase64 (image_base64.getD []))
  else if truthy image_url then some (.fromUrl (image_url.getD []))
  else none

/-- The `image_url` block attached to the prompt for each source (agent.py
lines 64-88): a local path is read and base64-encoded first (`encode_image`,
which may raise), inline base64 is wrapped in a data URL, a URL passes
through unchanged. -/
def image_attachment (encode_image : Text → Except Text Text) :
    ImageSource → Except Text Text
  | .fromPath p => (encode_image p).map (fun b => "data:image/jpeg;base64,".toList ++ b)
  | .fromBase64 b => .ok ("data:image/jpeg;base64,".toList ++ b)
  | .fromUrl u => .ok u

/-- `analyze_ethnic_image` (agent.py lines 48-133).  `encode_image` models
the file read plus base64 encoding, `remote` the vision completion call on
the attachment; an `.error` on either is an exception caught by the enclosing
`try`, returned as an `errore` dictionary.  The second component records the
remote calls actually made (an encoding failure happens before the call). -/
def analyze_ethnic_image (image_path image_url image_base64 : Option Text)
    (encode_image : Text → Except Text Text)
    (remote : Text → Except Text Text) : Json × List RemoteCall :=
  match choose_image_source image_path image_url image_base64 with
  | none => (Json.obj [("errore".toList, Json.str "No image provided".toList)], [])
  | some src =>
    match image_attachment encode_image src with
    | .error e =>
      (Json.obj [("errore".toList, Json.str ("Error in image analysis: ".toList ++ e))], [])
    | .ok att =>
      match remote att with
      | .error e =>
        (Json.obj [("errore".toList, Json.str ("Error in image analysis: ".toList ++ e))],
         [.vision att])
      | .ok reply => (analyze_image_parse reply, [.vision att])

/-- `web_search` (agent.py lines 20-41): the reply text of the
search-augmented call, or the textual error marker when the call raises. -/
def web_search (remote : Except Text Text) : Text :=
  match remote with
  | .ok reply => reply
  | .error e => "Error during web search: ".toList ++ e

/-- `calculate_jewish_probability` (agent.py lines 135-242): the scoring call
followed by `calculate_parse`; a raised exception is returned as an `errore`
dictionary.  The call itself is always attempted, hence always traced. -/
def calculate_jewish_probability (remote : Except Text Text) : Json × List RemoteCall :=
  (match remote with
   | .error e =>
     Json.obj [("errore".toList, Json.str ("Error calculating score: ".toList ++ e))]
   | .ok reply => calculate_parse reply,
   [.scoring])

/-- Python whitespace as stripped by `str.strip()` (ASCII range). -/
def isPyWs (c : Char) : Bool :=
  c = ' ' || c = '\t' || c = '\n' || c = '\r' || c = '\x0c' || c = '\x0b'

/-- Python `str.strip()`. -/
def pyStrip (s : Text) : Text :=
  ((s.dropWhile isPyWs).reverse.dropWhile isPyWs).reverse

/-- Python `"\n\n".join(...)`. -/
def joinBlank : List Text → Text
  | [] => []
  | [x] => x
  | x :: y :: xs => x ++ "\n\n".toList ++ joinBlank (y :: xs)

/-- The three fixed query templates of `analyze_person_jewish_identity`
(agent.py lines 251-255). -/
def search_queries (full_name : Text) : List Text :=
  [full_name ++ " ethnic origin Jewish heritage".toList,
   full_name ++ " family background ancestry".toList,
   full_name ++ " religious affiliation cultural background".toList]

/-- The concatenated search text (agent.py lines 257-262): the three
`web_search` results joined by a blank line. -/
def combined_search (search_remote : Text → Except Text Text) (full_name : Text) : Text :=
  joinBlank ((search_queries full_name).map (fun q => web_search (search_remote q)))

/-- The excerpt expression of agent.py line 276:
`combined_search_data[:500] + "..." if len(combined_search_data) > 500 else
combined_search_data` (the conditional expression groups as
`(combined[:500] + "...") if ... else combined`). -/
def search_excerpt (s : Text) : Text :=
  if s.length > 500 then s.take 500 ++ "...".toList else s

/-- The result dictionary of `analyze_person_jewish_identity` (agent.py lines
273-279). -/
structure AnalysisResult where
  persona : Text
  timestamp : Text
  dati_ricerca : Text
  analisi_immagine : Option Json
  risultato_finale : Json

/-- `analyze_person_jewish_identity` (agent.py lines 244-281).
`search_remote` maps each query to its reply or exception; `encode_image` and
`vision_remote` feed `analyze_ethnic_image`; `scoring_remote` answers the
final scoring call.  The second component is the trace of remote invocations
in program order. -/
def analyze_person_jewish_identity (nome cognome : Text)
    (image_path image_url image_base64 : Option Text)
    (search_remote : Text → Except Text Text)
    (encode_image : Text → Except Text Text)
    (vision_remote : Text → Except Text Text)
    (scoring_remote : Except Text Text) : AnalysisResult × List RemoteCall :=
  let full_name := pyStrip (nome ++ [' '] ++ cognome)
  let combined_search_data := combined_search search_remote full_name
  let image_step : Option (Json × List RemoteCall) :=
    if truthy image_path || truthy image_url || truthy image_base64 then
      some (analyze_ethnic_image image_path image_url image_base64 encode_image vision_remote)
    else none
  let final := calculate_jewish_probability scoring_remote
  ({ persona := full_name
     timestamp := "2025-09-22".toList
     dati_ricerca := search_excerpt combined_search_data
     analisi_immagine := image_step.map Prod.fst
     risultato_finale := final.1 },
   (search_queries full_name).map RemoteCall.search
     ++ ((image_step.map Prod.snd).getD []) ++ final.2)

/-- The parsed POST body of the HTTP adapter (`data` in analyze.py line 27),
restricted to the three fields the handler reads. -/
structure PostBody where
  firstName : Option Text
  lastName : Option Text
  imageBase64 : Option Text

/-- An HTTP response of the adapter: a 200 with the serialized result, or an
error status with a message (`send_error`). -/
inductive HttpResponse where
  | ok (code : Nat) (body : AnalysisResult) : HttpResponse
  | err (code : Nat) (message : Text) : HttpResponse

/-- `handler.do_POST` (src/api/analyze.py lines 22-61) after the body has
been parsed: `data.get(..., '')` with Python falsiness, the 400 validation
branch, the 500 missing-credential branch, and the 200 branch invoking the
orchestrator with the base64 image only.  The second component is the trace
of remote invocations. -/
def do_POST (body : PostBody) (api_key : Option Text)
    (search_remote : Text → Except Text Text)
    (encode_image : Text → Except Text Text)
    (vision_remote : Text → Except Text Text)
    (scoring_remote : Except Text Text) : HttpResponse × List RemoteCall :=
  let firstName := body.firstName.getD []
  let lastName := body.lastName.getD []
  if firstName.isEmpty || lastName.isEmpty then
    (.err 400 "First name and last name are required".toList, [])
  else if !truthy api_key then
    (.err 500 "OpenAI API key not configured".toList, [])
  else
    let image_param := if truthy body.imageBase64 then body.imageBase64 else none
    let r := analyze_person_jewish_identity firstName lastName none none image_param
               search_remote encode_image vision_remote scoring_remote
    (.ok 200 r.1, r.2)

/-! ## Helper lemmas -/

/-- `json_get` reads the `categoria` field off any calculate-fallback dict. -/
theorem json_get_calc_fallback_categoria (r lbl : Text) (c : Int) :
    json_get (calc_fallback r lbl c) "categoria".toList
      = some (Json.str (if extract_probability r > 40 then "moderata".toList
                        else "bassa".toList)) := rfl

/-- `json_get` reads the `confidenza` field off any calculate-fallback dict. -/
theorem json_get_calc_fallback_confidenza (r lbl : Text) (c : Int) :
    json_get (calc_fallback r lbl c) "confidenza".toList = some (Json.num c (-1)) := rfl

/-- `json_get` reads the `probabilita_percentuale` field off any
calculate-fallback dict. -/
theorem json_get_calc_fallback_probabilita (r lbl : Text) (c : Int) :
    json_get (calc_fallback r lbl c) "probabilita_percentuale".toList
      = some (Json.num ((extract_probability r : Nat) : Int) 0) := rfl

/-- In every calculate-fallback dict, the category is `moderata` exactly when
the recovered probability exceeds 40. -/
theorem calc_fallback_categoria_iff (r lbl : Text) (c : Int) :
    (json_get (calc_fallback r lbl c) "categoria".toList
        = some (Json.str "moderata".toList))
      ↔ extract_probability r > 40 := by
  rw [json_get_calc_fallback_categoria]
  by_cases h : extract_probability r > 40
  · simp [h]
  · simp only [h, if_false, iff_false]
    intro hcontra
    simp only [Option.some.injEq, Json.str.injEq] at hcontra
    exact absurd hcontra (by decide)

/-- In every calculate-fallback dict, the category is `bassa` exactly when
the recovered probability does not exceed 40. -/
theorem calc_fallback_categoria_bassa_iff (r lbl : Text) (c : Int) :
    (json_get (calc_fallback r lbl c) "categoria".toList
        = some (Json.str "bassa".toList))
      ↔ ¬ extract_probability r > 40 := by
  rw [json_get_calc_fallback_categoria]
  by_cases h : extract_probability r > 40
  · rw [if_pos h]
    simp only [h, not_true, iff_false]
    intro hcontra
    simp only [Option.some.injEq, Json.str.injEq] at hcontra
    exact absurd hcontra (by decide)
  · rw [if_neg h]
    simp [h]

/-! ## Claim theorems -/

/-- **C10.** For every invocation of `analyze_person_jewish_identity`,
independently of all inputs and of the remote replies, the `timestamp` field
of the result equals the fixed constant string `"2025-09-22"` (agent.py line
275 stores a string literal; no clock is read anywhere in the function). -/
theorem C10_timestamp_constant (nome cognome : Text)
    (image_path image_url image_base64 : Option Text)
    (search_remote encode_image vision_remote : Text → Except Text Text)
    (scoring_remote : Except Text Text) :
    (analyze_person_jewish_identity nome cognome image_path image_url image_base64
        search_remote encode_image vision_remote scoring_remote).1.timestamp
      = "2025-09-22".toList := rfl

/-- **C9.** With no image input supplied, the `analisi_immagine` field of the
result is exactly `none`, the remote-call trace contains only the three
search calls and the scoring call (no vision call), and the whole run is
independent of the image-analysis oracles — `analyze_ethnic_image` is never
invoked (agent.py lines 264-267). -/
theorem C9_no_image (nome cognome : Text)
    (search_remote encode_image vision_remote : Text → Except Text Text)
    (encode_image' vision_remote' : Text → Except Text Text)
    (scoring_remote : Except Text Text) :
    (analyze_person_jewish_identity nome cognome none none none
        search_remote encode_image vision_remote scoring_remote).1.analisi_immagine = none
    ∧ (analyze_person_jewish_identity nome cognome none none none
        search_remote encode_image vision_remote scoring_remote).2
      = (search_queries (pyStrip (nome ++ [' '] ++ cognome))).map RemoteCall.search
          ++ [RemoteCall.scoring]
    ∧ analyze_person_jewish_identity nome cognome none none none
        search_remote encode_image vision_remote scoring_remote
      = analyze_person_jewish_identity nome cognome none none none
          search_remote encode_image' vision_remote' scoring_remote :=
  ⟨rfl, rfl, rfl⟩

/-- **C7.** For every parsed POST body missing `firstName` or `lastName`, the
HTTP adapter responds with status 400 and the validation error message, and
the remote-call trace is empty — no remote model call is made
(analyze.py lines 29-36). -/
theorem C7_missing_name_400 (body : PostBody) (api_key : Option Text)
    (search_remote encode_image vision_remote : Text → Except Text Text)
    (scoring_remote : Except Text Text)
    (h : body.firstName = none ∨ body.lastName = none) :
    do_POST body api_key search_remote encode_image vision_remote scoring_remote
      = (HttpResponse.err 400 "First name and last name are required".toList, []) := by
  rcases h with h | h <;> simp [do_POST, h]

/-- Witness for `C7_missing_name_400` at a concrete body with no
`firstName`. -/
theorem C7_missing_name_400_witness :
    do_POST ⟨none, some "Doe".toList, none⟩ (some ['k'])
        (fun _ => Except.ok []) (fun _ => Except.ok []) (fun _ => Except.ok [])
        (Except.ok [])
      = (HttpResponse.err 400 "First name and last name are required".toList, []) :=
  C7_missing_name_400 ⟨none, some "Doe".toList, none⟩ (some ['k'])
    (fun _ => Except.ok []) (fun _ => Except.ok []) (fun _ => Except.ok [])
    (Except.ok []) (Or.inl rfl)

/-- **C8.** Remote failures never propagate: when the search call raises,
`web_search` returns the textual error-marker string (agent.py lines 40-41),
and when the vision call raises, `analyze_ethnic_image` returns an
error-object dictionary (agent.py lines 132-133) — in both cases a value, not
an exception. -/
theorem C8_failures_as_data (e att : Text) (image_path image_url image_base64 : Option Text)
    (encode_image : Text → Except Text Text) (src : ImageSource)
    (h1 : choose_image_source image_path image_url image_base64 = some src)
    (h2 : image_attachment encode_image src = Except.ok att) :
    web_search (Except.error e) = "Error during web search: ".toList ++ e
    ∧ analyze_ethnic_image image_path image_url image_base64 encode_image
        (fun _ => Except.error e)
      = (Json.obj [("errore".toList,
          Json.str ("Error in image analysis: ".toList ++ e))], [.vision att]) := by
  refine ⟨rfl, ?_⟩
  simp [analyze_ethnic_image, h1, h2]

/-- Witness for `C8_failures_as_data`: a local-path image whose encoding
succeeds while the vision call fails. -/
theorem C8_failures_as_data_witness :
    web_search (Except.error "boom".toList)
      = "Error during web search: ".toList ++ "boom".toList
    ∧ analyze_ethnic_image (some "img.jpg".toList) none none
        (fun _ => Except.ok "QUJD".toList) (fun _ => Except.error "boom".toList)
      = (Json.obj [("errore".toList,
          Json.str ("Error in image analysis: ".toList ++ "boom".toList))],
         [.vision ("data:image/jpeg;base64,".toList ++ "QUJD".toList)]) :=
  C8_failures_as_data "boom".toList ("data:image/jpeg;base64,".toList ++ "QUJD".toList)
    (some "img.jpg".toList) none none (fun _ => Except.ok "QUJD".toList)
    (ImageSource.fromPath "img.jpg".toList) rfl rfl

/-- **C6.** The `dati_ricerca` field of the result is `search_excerpt` of the
concatenated search text, and `search_excerpt` passes a text through
unmodified when its length is at most 500 and otherwise yields exactly the
first 500 characters followed by the ellipsis marker `"..."` (agent.py line
276). -/
theorem C6_excerpt_truncation (nome cognome : Text)
    (image_path image_url image_base64 : Option Text)
    (search_remote encode_image vision_remote : Text → Except Text Text)
    (scoring_remote : Except Text Text) :
    (analyze_person_jewish_identity nome cognome image_path image_url image_base64
        search_remote encode_image vision_remote scoring_remote).1.dati_ricerca
      = search_excerpt (combined_search search_remote (pyStrip (nome ++ [' '] ++ cognome)))
    ∧ (∀ s : Text, s.length ≤ 500 → search_excerpt s = s)
    ∧ (∀ s : Text, s.length > 500 →
        search_excerpt s = s.take 500 ++ "...".toList
        ∧ (search_excerpt s).length = 503
        ∧ (search_excerpt s).take 500 = s.take 500) := by
  refine ⟨rfl, ?_, ?_⟩
  · intro s h
    simp only [search_excerpt]
    rw [if_neg (by omega)]
  · intro s h
    have he : search_excerpt s = s.take 500 ++ "...".toList := by
      simp only [search_excerpt]
      rw [if_pos h]
    refine ⟨he, ?_, ?_⟩
    · rw [he]
      have h3 : "...".toList.length = 3 := rfl
      simp only [List.length_append, List.length_take, h3]
      omega
    · rw [he, List.take_append_of_le_length (by simp; omega), List.take_take,
        Nat.min_self]

set_option maxRecDepth 8000 in
/-- Witness for `C6_excerpt_truncation`: the pass-through case on a 3-character
text and the truncation case on a 501-character text. -/
theorem C6_excerpt_truncation_witness :
    ("abc".toList.length ≤ 500 ∧ search_excerpt "abc".toList = "abc".toList)
    ∧ ((List.replicate 501 'a').length > 500
        ∧ search_excerpt (List.replicate 501 'a')
            = (List.replicate 501 'a').take 500 ++ "...".toList
        ∧ (search_excerpt (List.replicate 501 'a')).length = 503) :=
  ⟨⟨by decide, (C6_excerpt_truncation [] [] none none none
      (fun _ => Except.ok []) (fun _ => Except.ok []) (fun _ => Except.ok [])
      (Except.ok [])).2.1 "abc".toList (by decide)⟩,
   ⟨by decide,
    ((C6_excerpt_truncation [] [] none none none
      (fun _ => Except.ok []) (fun _ => Except.ok []) (fun _ => Except.ok [])
      (Except.ok [])).2.2 (List.replicate 501 'a') (by decide)).1,
    ((C6_excerpt_truncation [] [] none none none
      (fun _ => Except.ok []) (fun _ => Except.ok []) (fun _ => Except.ok [])
      (Except.ok [])).2.2 (List.replicate 501 'a') (by decide)).2.1⟩⟩

/-- **C2 (counterexample).** With both a local path and inline base64
supplied, `analyze_ethnic_image` selects the local path, not the inline
base64 — refuting the claimed priority order "inline base64 first, then local
path" (agent.py lines 64-80 check `image_path` before `image_base64`). -/
theorem C2_counterexample :
    choose_image_source (some "p.jpg".toList) none (some "QUJD".toList)
      = some (ImageSource.fromPath "p.jpg".toList)
    ∧ choose_image_source (some "p.jpg".toList) none (some "QUJD".toList)
      ≠ some (ImageSource.fromBase64 "QUJD".toList) := by
  refine ⟨rfl, ?_⟩
  have e : choose_image_source (some "p.jpg".toList) none (some "QUJD".toList)
      = some (ImageSource.fromPath "p.jpg".toList) := rfl
  rw [e]
  simp

/-- **C2 (amended).** The image source attached to the prompt is selected in
the priority order: local path first, then inline base64, then remote URL
(agent.py lines 64-88); and when none of the three is supplied (Python
falsiness), `analyze_ethnic_image` returns the `No image provided` error
value with an empty remote-call trace — no remote call is made (line 90). -/
theorem C2_source_priority (image_path image_url image_base64 : Option Text)
    (encode_image remote : Text → Except Text Text) :
    (truthy image_path = true →
      choose_image_source image_path image_url image_base64
        = some (ImageSource.fromPath (image_path.getD [])))
    ∧ (truthy image_path = false → truthy image_base64 = true →
      choose_image_source image_path image_url image_base64
        = some (ImageSource.fromBase64 (image_base64.getD [])))
    ∧ (truthy image_path = false → truthy image_base64 = false →
        truthy image_url = true →
      choose_image_source image_path image_url image_base64
        = some (ImageSource.fromUrl (image_url.getD [])))
    ∧ (truthy image_path = false → truthy image_base64 = false →
        truthy image_url = false →
      analyze_ethnic_image image_path image_url image_base64 encode_image remote
        = (Json.obj [("errore".toList, Json.str "No image provided".toList)], [])) := by
  refine ⟨?_, ?_, ?_, ?_⟩
  · intro h1
    simp [choose_image_source, h1]
  · intro h1 h2
    simp [choose_image_source, h1, h2]
  · intro h1 h2 h3
    simp [choose_image_source, h1, h2, h3]
  · intro h1 h2 h3
    simp [analyze_ethnic_image, choose_image_source, h1, h2, h3]

/-- Witness for `C2_source_priority`: base64 is selected when no path is
given, and the all-empty case yields the error value with an empty trace. -/
theorem C2_source_priority_witness :
    choose_image_source none none (some "QUJD".toList)
      = some (ImageSource.fromBase64 "QUJD".toList)
    ∧ analyze_ethnic_image none none none
        (fun _ => Except.ok []) (fun _ => Except.ok [])
      = (Json.obj [("errore".toList, Json.str "No image provided".toList)], []) :=
  ⟨(C2_source_priority none none (some "QUJD".toList)
      (fun _ => Except.ok []) (fun _ => Except.ok [])).2.1 rfl rfl,
   (C2_source_priority none none none
      (fun _ => Except.ok []) (fun _ => Except.ok [])).2.2.2 rfl rfl rfl⟩

/-- **C3 (counterexample).** A reply whose brace region is malformed while
the text contains the integer 65: the claim predicts score 65 (first integer
token), but the code's `except` branch returns the constant 50 (agent.py
lines 125-130) — first-integer extraction runs only when no `{...}` region
exists at all. -/
theorem C3_counterexample :
    first_int "around 65 but \x7bbad\x7d".toList = some 65
    ∧ json_get (analyze_image_parse "around 65 but \x7bbad\x7d".toList)
        "punteggio_immagine".toList = some (Json.num 50 0)
    ∧ json_get (analyze_image_parse "around 65 but \x7bbad\x7d".toList)
        "punteggio_immagine".toList ≠ some (Json.num 65 0) := by
  refine ⟨rfl, rfl, ?_⟩
  have e : json_get (analyze_image_parse "around 65 but \x7bbad\x7d".toList)
      "punteggio_immagine".toList = some (Json.num 50 0) := rfl
  rw [e]
  simp

/-- **C3 (amended).** When the reply contains no `{...}` region at all,
`analyze_ethnic_image` falls back to the first integer token as the score
(default 50 when the reply has no integer) with the placeholder indicator
list `["unstructured analysis"]`; when a brace region exists but fails to
parse, the score is the constant 50 with indicator list `["analysis error"]`
regardless of any integer in the text; every fallback carries the first 200
characters of the raw reply as the explanation (agent.py lines 110-130). -/
theorem C3_integer_fallback (r : Text) :
    (brace_extract r = none →
      analyze_image_parse r
        = Json.obj [("punteggio_immagine".toList,
                      Json.num (((first_int r).getD 50 : Nat) : Int) 0),
                    ("indicatori_visivi".toList,
                      Json.arr [Json.str "unstructured analysis".toList]),
                    ("spiegazione".toList, Json.str (r.take 200))])
    ∧ (∀ t, brace_extract r = some t → json_loads t = none →
      analyze_image_parse r
        = Json.obj [("punteggio_immagine".toList, Json.num 50 0),
                    ("indicatori_visivi".toList,
                      Json.arr [Json.str "analysis error".toList]),
                    ("spiegazione".toList, Json.str (r.take 200))])
    ∧ (brace_extract r = none → first_int r = none →
      json_get (analyze_image_parse r) "punteggio_immagine".toList
        = some (Json.num 50 0)) := by
  refine ⟨?_, ?_, ?_⟩
  · intro h
    simp [analyze_image_parse, h]
  · intro t h1 h2
    simp [analyze_image_parse, h1, h2]
  · intro h1 h2
    simp [analyze_image_parse, h1, h2, json_get]

/-- Witness for `C3_integer_fallback`: the spec's own example "around 65"
(score 65 from the first integer), a malformed-JSON reply (score 50), and a
digit-free reply (default 50). -/
theorem C3_integer_fallback_witness :
    analyze_image_parse "around 65".toList
      = Json.obj [("punteggio_immagine".toList, Json.num 65 0),
                  ("indicatori_visivi".toList,
                    Json.arr [Json.str "unstructured analysis".toList]),
                  ("spiegazione".toList, Json.str "around 65".toList)]
    ∧ analyze_image_parse "bad \x7b ! \x7d".toList
      = Json.obj [("punteggio_immagine".toList, Json.num 50 0),
                  ("indicatori_visivi".toList,
                    Json.arr [Json.str "analysis error".toList]),
                  ("spiegazione".toList, Json.str "bad \x7b ! \x7d".toList)]
    ∧ json_get (analyze_image_parse "no digits here".toList)
        "punteggio_immagine".toList = some (Json.num 50 0) :=
  ⟨by
    have h := (C3_integer_fallback "around 65".toList).1 rfl
    simpa using h,
   by
    have h := (C3_integer_fallback "bad \x7b ! \x7d".toList).2.1
      "\x7b ! \x7d".toList rfl rfl
    simpa using h,
   (C3_integer_fallback "no digits here".toList).2.2 rfl rfl⟩

/-- **C4.** In every fallback branch of `calculate_jewish_probability` —
parsed JSON missing the probability key, no brace region found, or a parse
exception — the returned category is `moderata` ("moderate") exactly when the
recovered probability exceeds 40 and is `bassa` ("low") exactly when it does
not, the
confidence is `0.5` in the two non-exception fallbacks and `0.3` in the
parse-exception fallback, and the returned probability is the recovered one
(agent.py lines 183-239). -/
theorem C4_fallback_category_confidence (r : Text) :
    (∀ t v, brace_extract r = some t → json_loads t = some v →
      json_has_key v "probabilita_percentuale".toList = false →
      ((json_get (calculate_parse r) "categoria".toList
          = some (Json.str "moderata".toList)) ↔ extract_probability r > 40)
      ∧ ((json_get (calculate_parse r) "categoria".toList
          = some (Json.str "bassa".toList)) ↔ ¬ extract_probability r > 40)
      ∧ json_get (calculate_parse r) "confidenza".toList = some (Json.num 5 (-1))
      ∧ json_get (calculate_parse r) "probabilita_percentuale".toList
          = some (Json.num ((extract_probability r : Nat) : Int) 0))
    ∧ (brace_extract r = none →
      ((json_get (calculate_parse r) "categoria".toList
          = some (Json.str "moderata".toList)) ↔ extract_probability r > 40)
      ∧ ((json_get (calculate_parse r) "categoria".toList
          = some (Json.str "bassa".toList)) ↔ ¬ extract_probability r > 40)
      ∧ json_get (calculate_parse r) "confidenza".toList = some (Json.num 5 (-1))
      ∧ json_get (calculate_parse r) "probabilita_percentuale".toList
          = some (Json.num ((extract_probability r : Nat) : Int) 0))
    ∧ (∀ t, brace_extract r = some t → json_loads t = none →
      ((json_get (calculate_parse r) "categoria".toList
          = some (Json.str "moderata".toList)) ↔ extract_probability r > 40)
      ∧ ((json_get (calculate_parse r) "categoria".toList
          = some (Json.str "bassa".toList)) ↔ ¬ extract_probability r > 40)
      ∧ json_get (calculate_parse r) "confidenza".toList = some (Json.num 3 (-1))
      ∧ json_get (calculate_parse r) "probabilita_percentuale".toList
          = some (Json.num ((extract_probability r : Nat) : Int) 0)) := by
  refine ⟨?_, ?_, ?_⟩
  · intro t v h1 h2 h3
    have e : calculate_parse r = calc_fallback r "fallback analysis".toList 5 := by
      simp at h3
      simp [calculate_parse, h1, h2, h3]
    rw [e]
    exact ⟨calc_fallback_categoria_iff r _ 5,
      calc_fallback_categoria_bassa_iff r _ 5,
      json_get_calc_fallback_confidenza r _ 5,
      json_get_calc_fallback_probabilita r _ 5⟩
  · intro h1
    have e : calculate_parse r = calc_fallback r "unstructured analysis".toList 5 := by
      simp [calculate_parse, h1]
    rw [e]
    exact ⟨calc_fallback_categoria_iff r _ 5,
      calc_fallback_categoria_bassa_iff r _ 5,
      json_get_calc_fallback_confidenza r _ 5,
      json_get_calc_fallback_probabilita r _ 5⟩
  · intro t h1 h2
    have e : calculate_parse r = calc_fallback r "analysis error fallback".toList 3 := by
      simp [calculate_parse, h1, h2]
    rw [e]
    exact ⟨calc_fallback_categoria_iff r _ 3,
      calc_fallback_categoria_bassa_iff r _ 3,
      json_get_calc_fallback_confidenza r _ 3,
      json_get_calc_fallback_probabilita r _ 3⟩

/-- Witness for `C4_fallback_category_confidence` on all three branches: the
spec's example "78%" with no JSON (probability 78 > 40, `moderata` and not
`bassa`, 0.5); a parsed object missing the probability key next to "78%"
(0.5); a malformed brace region next to "30%" (30 ≤ 40, `bassa` and not
`moderata`, 0.3). -/
theorem C4_fallback_category_confidence_witness :
    (extract_probability "I am 78% sure".toList > 40
      ∧ json_get (calculate_parse "I am 78% sure".toList) "categoria".toList
          = some (Json.str "moderata".toList)
      ∧ ¬ json_get (calculate_parse "I am 78% sure".toList) "categoria".toList
          = some (Json.str "bassa".toList)
      ∧ json_get (calculate_parse "I am 78% sure".toList) "confidenza".toList
          = some (Json.num 5 (-1))
      ∧ json_get (calculate_parse "I am 78% sure".toList)
          "probabilita_percentuale".toList = some (Json.num 78 0))
    ∧ json_get (calculate_parse "\x7b\"x\": 1\x7d 78%".toList) "confidenza".toList
        = some (Json.num 5 (-1))
    ∧ (¬ extract_probability "\x7bbad\x7d 30%".toList > 40
      ∧ json_get (calculate_parse "\x7bbad\x7d 30%".toList) "categoria".toList
          = some (Json.str "bassa".toList)
      ∧ ¬ json_get (calculate_parse "\x7bbad\x7d 30%".toList) "categoria".toList
          = some (Json.str "moderata".toList)
      ∧ json_get (calculate_parse "\x7bbad\x7d 30%".toList) "confidenza".toList
          = some (Json.num 3 (-1))) := by
  have h78 := (C4_fallback_category_confidence "I am 78% sure".toList).2.1 rfl
  have hkey := (C4_fallback_category_confidence "\x7b\"x\": 1\x7d 78%".toList).1
    "\x7b\"x\": 1\x7d".toList (Json.obj [("x".toList, Json.num 1 0)]) rfl rfl rfl
  have hbad := (C4_fallback_category_confidence "\x7bbad\x7d 30%".toList).2.2
    "\x7bbad\x7d".toList rfl rfl
  refine ⟨⟨by decide, h78.1.mpr (by decide),
      fun hc => absurd (by decide) (h78.2.1.mp hc),
      h78.2.2.1, by
      have := h78.2.2.2
      simpa using this⟩,
    hkey.2.2.1,
    ⟨by decide, hbad.2.1.mpr (by decide),
      fun hc => absurd (hbad.1.mp hc) (by decide), hbad.2.2.1⟩⟩

/-- **C5 (counterexample).** The reply "around 650 people attended." has no
JSON object, so the first-integer fallback yields score 650 — a non-error
assessment whose score is not in 0–100: the code clamps nothing (agent.py
lines 117-124). -/
theorem C5_counterexample :
    json_get (analyze_image_parse "around 650 people attended.".toList)
        "punteggio_immagine".toList = some (Json.num 650 0)
    ∧ json_get (analyze_image_parse "around 650 people attended.".toList)
        "errore".toList = none
    ∧ ¬ (650 : Int) ≤ 100 :=
  ⟨rfl, rfl, by decide⟩

/-- **C5 (amended).** The fallback tiers produce scores and probabilities
that are nonnegative integers but are not clamped to 100 (the parsed-JSON
tier returns the model's object unvalidated); the confidences attached by the
fallback tiers of `calculate_jewish_probability` are the constants 0.5 and
0.3, which do lie in 0.0–1.0 (agent.py lines 117-130, 183-239). -/
theorem C5_score_shape (r : Text) :
    (brace_extract r = none →
      json_get (analyze_image_parse r) "punteggio_immagine".toList
        = some (Json.num (((first_int r).getD 50 : Nat) : Int) 0)
      ∧ (0 : Int) ≤ (((first_int r).getD 50 : Nat) : Int)
      ∧ json_get (calculate_parse r) "confidenza".toList = some (Json.num 5 (-1))
      ∧ json_get (calculate_parse r) "probabilita_percentuale".toList
          = some (Json.num ((extract_probability r : Nat) : Int) 0)
      ∧ (0 : Int) ≤ ((extract_probability r : Nat) : Int))
    ∧ (∀ t, brace_extract r = some t → json_loads t = none →
      json_get (analyze_image_parse r) "punteggio_immagine".toList
        = some (Json.num 50 0)
      ∧ json_get (calculate_parse r) "confidenza".toList = some (Json.num 3 (-1)))
    ∧ (∀ q : ℚ, Json.numVal (Json.num 5 (-1)) = some q → 0 ≤ q ∧ q ≤ 1)
    ∧ (∀ q : ℚ, Json.numVal (Json.num 3 (-1)) = some q → 0 ≤ q ∧ q ≤ 1) := by
  refine ⟨?_, ?_, ?_, ?_⟩
  · intro h
    have e1 : analyze_image_parse r
        = Json.obj [("punteggio_immagine".toList,
                      Json.num (((first_int r).getD 50 : Nat) : Int) 0),
                    ("indicatori_visivi".toList,
                      Json.arr [Json.str "unstructured analysis".toList]),
                    ("spiegazione".toList, Json.str (r.take 200))] := by
      simp [analyze_image_parse, h]
    have e2 : calculate_parse r = calc_fallback r "unstructured analysis".toList 5 := by
      simp [calculate_parse, h]
    rw [e1, e2]
    exact ⟨rfl, Int.natCast_nonneg _,
      json_get_calc_fallback_confidenza r _ 5,
      json_get_calc_fallback_probabilita r _ 5,
      Int.natCast_nonneg _⟩
  · intro t h1 h2
    have e1 : analyze_image_parse r
        = Json.obj [("punteggio_immagine".toList, Json.num 50 0),
                    ("indicatori_visivi".toList,
                      Json.arr [Json.str "analysis error".toList]),
                    ("spiegazione".toList, Json.str (r.take 200))] := by
      simp [analyze_image_parse, h1, h2]
    have e2 : calculate_parse r = calc_fallback r "analysis error fallback".toList 3 := by
      simp [calculate_parse, h1, h2]
    rw [e1, e2]
    exact ⟨rfl, json_get_calc_fallback_confidenza r _ 3⟩
  · intro q hq
    simp only [Json.numVal, Option.some.injEq] at hq
    subst hq
    norm_num
  · intro q hq
    simp only [Json.numVal, Option.some.injEq] at hq
    subst hq
    norm_num

/-- Witness for `C5_score_shape`: the 650 reply for the no-brace branch, a
malformed brace region for the exception branch, and the two confidence
constants. -/
theorem C5_score_shape_witness :
    (json_get (analyze_image_parse "around 650 people attended. ".toList)
        "punteggio_immagine".toList = some (Json.num 650 0)
      ∧ json_get (calculate_parse "around 650 people attended. ".toList)
          "confidenza".toList = some (Json.num 5 (-1)))
    ∧ json_get (calculate_parse "oops \x7b ! \x7d".toList) "confidenza".toList
        = some (Json.num 3 (-1))
    ∧ (0 ≤ (5 : ℚ) * 10 ^ (-1 : Int) ∧ (5 : ℚ) * 10 ^ (-1 : Int) ≤ 1) := by
  have h1 := (C5_score_shape "around 650 people attended. ".toList).1 rfl
  have h2 := (C5_score_shape "oops \x7b ! \x7d".toList).2.1 "\x7b ! \x7d".toList rfl rfl
  have h3 := (C5_score_shape []).2.2.1 ((5 : ℚ) * 10 ^ (-1 : Int)) rfl
  refine ⟨⟨?_, h1.2.2.1⟩, h2.2, h3⟩
  have := h1.1
  simpa using this

/-- **C1 (counterexample).** A reply holding the well-formed object
`{"punteggio_immagine": 73}` in prose with one more `}` later: the greedy
`re.search(r'\{.*\}', ..., re.DOTALL)` spans to the *last* `}`, the span
fails to parse, and `analyze_ethnic_image` does not return the embedded
object (it returns the constant-50 `analysis error` fallback) — refuting
"locates the first top-level `{...}` substring". -/
theorem C1_counterexample :
    json_loads "\x7b\"punteggio_immagine\": 73\x7d".toList
      = some (Json.obj [("punteggio_immagine".toList, Json.num 73 0)])
    ∧ brace_extract "Result: \x7b\"punteggio_immagine\": 73\x7d and note \x7d".toList
      = some "\x7b\"punteggio_immagine\": 73\x7d and note \x7d".toList
    ∧ analyze_image_parse "Result: \x7b\"punteggio_immagine\": 73\x7d and note \x7d".toList
      ≠ Json.obj [("punteggio_immagine".toList, Json.num 73 0)] := by
  refine ⟨rfl, rfl, ?_⟩
  have e : analyze_image_parse
      "Result: \x7b\"punteggio_immagine\": 73\x7d and note \x7d".toList
      = Json.obj [("punteggio_immagine".toList, Json.num 50 0),
                  ("indicatori_visivi".toList, Json.arr [Json.str "analysis error".toList]),
                  ("spiegazione".toList,
                    Json.str "Result: \x7b\"punteggio_immagine\": 73\x7d and note \x7d".toList)]
      := rfl
  rw [e]
  simp

/-- **C1 (amended).** Tier 1 extracts the *greedy* brace span — from the
first `{` that precedes the last `}` to that last `}` — and, when that span
parses as JSON, both `analyze_ethnic_image` and (key present)
`calculate_jewish_probability` return exactly the parsed object; the greedy
span coincides with an embedded well-formed object exactly when no `{`
occurs before the object and no `}` occurs after it in the reply (agent.py
lines 110-115, 183-190). -/
theorem C1_greedy_tier1 :
    (∀ r t v, brace_extract r = some t → json_loads t = some v →
      analyze_image_parse r = v)
    ∧ (∀ r t v, brace_extract r = some t → json_loads t = some v →
      json_has_key v "probabilita_percentuale".toList = true →
      calculate_parse r = v)
    ∧ (∀ pre obj post v, json_loads obj = some v →
      '{' ∉ pre → '}' ∉ post →
      obj.head? = some '{' → obj.getLast? = some '}' →
      brace_extract (pre ++ obj ++ post) = some obj) := by
  refine ⟨?_, ?_, ?_⟩
  · intro r t v h1 h2
    simp [analyze_image_parse, h1, h2]
  · intro r t v h1 h2 h3
    simp at h3
    simp [calculate_parse, h1, h2, h3]
  · intro pre obj post v _hv hpre hpost hhead hlast
    obtain ⟨otail, rfl⟩ : ∃ otail, obj = '{' :: otail := by
      cases obj with
      | nil => simp at hhead
      | cons c cs =>
        simp only [List.head?_cons, Option.some.injEq] at hhead
        exact ⟨cs, by rw [hhead]⟩
    have hne : otail ≠ [] := by
      intro h
      subst h
      simp at hlast
    have hfindA : List.findIdx? (fun c => c = '{') (pre ++ '{' :: otail ++ post)
        = some pre.length := by
      rw [List.append_assoc, List.findIdx?_append]
      have h1 : pre.findIdx? (fun c => c = '{') = none := by
        rw [List.findIdx?_eq_none_iff]
        intro x hx
        simp only [decide_eq_false_iff_not]
        exact fun h => hpre (h ▸ hx)
      rw [h1]
      simp
    have hrev : ('{' :: otail).reverse.head? = some '}' := by
      rw [List.head?_reverse]
      exact hlast
    obtain ⟨rtail, hr⟩ : ∃ rtail, ('{' :: otail).reverse = '}' :: rtail := by
      cases hcase : ('{' :: otail).reverse with
      | nil => rw [hcase] at hrev; simp at hrev
      | cons c cs =>
        rw [hcase] at hrev
        simp only [List.head?_cons, Option.some.injEq] at hrev
        exact ⟨cs, by rw [hrev]⟩
    have hfindB : List.findIdx? (fun c => c = '}') (pre ++ '{' :: otail ++ post).reverse
        = some post.length := by
      rw [List.reverse_append, List.reverse_append, List.findIdx?_append]
      have h1 : post.reverse.findIdx? (fun c => c = '}') = none := by
        rw [List.findIdx?_eq_none_iff]
        intro x hx
        simp only [decide_eq_false_iff_not]
        exact fun h => hpost (h ▸ (List.mem_reverse.mp hx))
      rw [h1]
      rw [List.findIdx?_append, hr]
      simp
    have hlen : (pre ++ '{' :: otail ++ post).length
        = pre.length + (otail.length + 1) + post.length := by
      simp only [List.length_append, List.length_cons]
    have hot : 1 ≤ otail.length := by
      cases otail with
      | nil => exact absurd rfl hne
      | cons _ _ => simp
    simp only [brace_extract, hfindA, hfindB, hlen]
    rw [if_pos (by omega)]
    have hj : pre.length + (otail.length + 1) + post.length - 1 - post.length + 1
        = pre.length + (otail.length + 1) := by omega
    rw [hj]
    have htake : (pre ++ '{' :: otail ++ post).take (pre.length + (otail.length + 1))
        = pre ++ '{' :: otail := by
      have : (pre ++ '{' :: otail).length = pre.length + (otail.length + 1) := by
        simp only [List.length_append, List.length_cons]
      rw [← this, List.take_left]
    rw [htake]
    rw [List.drop_left' (rfl : pre.length = pre.length)]

/-- Witness for `C1_greedy_tier1` on all three conjuncts: a reply whose only
braces delimit the embedded object (returned exactly, by both parsers), and
the decomposition of that reply as prose + object + prose. -/
theorem C1_greedy_tier1_witness :
    analyze_image_parse "ok \x7b\"punteggio_immagine\": 73\x7d fine".toList
      = Json.obj [("punteggio_immagine".toList, Json.num 73 0)]
    ∧ calculate_parse "so \x7b\"probabilita_percentuale\": 30\x7d!".toList
      = Json.obj [("probabilita_percentuale".toList, Json.num 30 0)]
    ∧ brace_extract ("ok ".toList ++ "\x7b\"punteggio_immagine\": 73\x7d".toList
        ++ " fine".toList)
      = some "\x7b\"punteggio_immagine\": 73\x7d".toList :=
  ⟨C1_greedy_tier1.1 "ok \x7b\"punteggio_immagine\": 73\x7d fine".toList
      "\x7b\"punteggio_immagine\": 73\x7d".toList
      (Json.obj [("punteggio_immagine".toList, Json.num 73 0)]) rfl rfl,
   C1_greedy_tier1.2.1 "so \x7b\"probabilita_percentuale\": 30\x7d!".toList
      "\x7b\"probabilita_percentuale\": 30\x7d".toList
      (Json.obj [("probabilita_percentuale".toList, Json.num 30 0)]) rfl rfl rfl,
   C1_greedy_tier1.2.2 "ok ".toList "\x7b\"punteggio_immagine\": 73\x7d".toList
      " fine".toList (Json.obj [("punteggio_immagine".toList, Json.num 73 0)])
      rfl (by decide) (by decide) rfl rfl⟩
